import Mathlib

/-!
Verification development for the UAN automator repository.

The repository has two front-end variants sharing the same core logic:
`app.py` (the Streamlit variant, suffix `_app` below) and
`certificados_uan_cm.py` (the console/batch variant, suffix `_cm` below).
Where the two variants' code is identical the embedding has a single
definition.

Spreadsheets are modelled as value grids indexed by (row, column) together
with a merged-member predicate (`MergedCell` instances in openpyxl).
Python cell values are modelled by `UAN.Value`; Python floats are carried
as exact fractions (`UAN.PyFloat`) so that `int()` truncation and
numeric comparison are exact.  The filesystem seen by the PDF pipeline is
a partial map from path strings to file contents.  String helpers are
re-implemented structurally over character lists so that concrete
instances evaluate inside the kernel; case folding is ASCII-only, which
is adequate for the ASCII markers and extensions this program handles.
-/

namespace UAN

/-- ASCII lower-casing of one character (model of Python `str.lower` on the
ASCII markers and extensions used by this program). -/
def asciiLower (c : Char) : Char :=
  if 65 ≤ c.toNat ∧ c.toNat ≤ 90 then Char.ofNat (c.toNat + 32) else c

/-- ASCII upper-casing of one character (model of Python `str.upper`). -/
def asciiUpper (c : Char) : Char :=
  if 97 ≤ c.toNat ∧ c.toNat ≤ 122 then Char.ofNat (c.toNat - 32) else c

/-- Model of Python `s.lower()` (ASCII range). -/
def lowerStr (s : String) : String := ⟨s.data.map asciiLower⟩

/-- Model of Python `s.upper()` (ASCII range). -/
def upperStr (s : String) : String := ⟨s.data.map asciiUpper⟩

/-- Character-list version of `startswith`. -/
def startsWithL : List Char → List Char → Bool
  | _, [] => true
  | [], _ :: _ => false
  | a :: as, b :: bs => a = b && startsWithL as bs

/-- Character-list version of Python `pat in hay` (contiguous substring). -/
def containsL (pat : List Char) : List Char → Bool
  | [] => startsWithL [] pat
  | c :: t => startsWithL (c :: t) pat || containsL pat t

/-- Whitespace characters removed by Python `str.strip`. -/
def isPySpace (c : Char) : Bool := c = ' ' || c = '\t' || c = '\n' || c = '\r'

/-- Model of Python `str.strip()`. -/
def pyStrip (s : String) : String :=
  ⟨((s.data.dropWhile isPySpace).reverse.dropWhile isPySpace).reverse⟩

/-- Characters strictly after the last dot of the list, if any dot occurs. -/
def afterLastDot : List Char → Option (List Char)
  | [] => none
  | c :: t =>
    match afterLastDot t with
    | some r => some r
    | none => if c = '.' then some t else none

/-- Characters strictly before the last dot of the list, if any dot occurs. -/
def beforeLastDot : List Char → Option (List Char)
  | [] => none
  | c :: t =>
    match beforeLastDot t with
    | some r => some (c :: r)
    | none => if c = '.' then some [] else none

/-- Model of `pathlib.Path.suffix`: the extension of the path including the
dot, or the empty string.  Adequate for the paths this program builds,
whose only dots separate a base name from its extension. -/
def pathSuffix (p : String) : String :=
  match afterLastDot p.data with
  | some r => ⟨'.' :: r⟩
  | none => ""

/-- Model of `pathlib.Path.with_suffix`: replace the extension (everything
from the last dot) by `suf`, or append `suf` when there is no dot. -/
def with_suffix (p : String) (suf : String) : String :=
  match beforeLastDot p.data with
  | some r => String.mk r ++ suf
  | none => p ++ suf

/-- Exact value of a Python float as a fraction `num / den`.  The program
only ever compares, truncates and truth-tests floats, so an exact
fraction is a faithful carrier for every float it can meet. -/
structure PyFloat where
  num : Int
  den : Nat
deriving DecidableEq

/-- Model of Python `int()` applied to a float: truncation toward zero. -/
def pfTrunc (x : PyFloat) : Int :=
  if 0 ≤ x.num then ((x.num.natAbs / x.den : Nat) : Int)
  else -((x.num.natAbs / x.den : Nat) : Int)

/-- Values an openpyxl cell of this workbook can hold besides `None`. -/
inductive Value where
  | int (n : Int)
  | float (x : PyFloat)
  | str (t : String)
  | bool (b : Bool)
deriving DecidableEq

/-- Python truthiness of a cell value (`None`, `0`, `0.0`, `""` and
`False` are falsy). -/
def pyTruthy : Option Value → Bool
  | none => false
  | some (.int n) => n != 0
  | some (.float x) => x.num != 0
  | some (.str t) => !t.data.isEmpty
  | some (.bool b) => b

/-- Model of `isinstance(v, (int, float))` together with `int(v)`:
`some` exactly on Python numbers (`bool` is a subtype of `int` in
Python), carrying the truncated integer. -/
def numAsInt : Value → Option Int
  | .int n => some n
  | .float x => some (pfTrunc x)
  | .bool b => some (if b then 1 else 0)
  | .str _ => none

/-- Sequence number computed by `agregar_alumno` from the cell above the
insertion row: `int(prev) + 1 if isinstance(prev, (int, float)) else 1`. -/
def next_seq (prev : Option Value) : Int :=
  match prev with
  | some v => match numAsInt v with | some k => k + 1 | none => 1
  | none => 1

/-- A worksheet's cell values, indexed by (row, column), 1-based. -/
abbrev Grid := Nat → Nat → Option Value

/-- Point update of a grid. -/
def updVal (g : Grid) (r c : Nat) (v : Option Value) : Grid :=
  fun r0 c0 => if r0 = r ∧ c0 = c then v else g r0 c0

/-- Worksheet model: cell values, which cells are member (non-anchor)
cells of a merged region (openpyxl `MergedCell` instances), and
`ws.max_row`. -/
structure Sheet where
  val : Grid
  merged : Nat → Nat → Bool
  max_row : Nat

/-- Document handed in by the student (`Documento` dataclass; the field
`nombre_clave` is named `clave` in `app.py`). -/
structure Documento where
  nombre_clave : String
  nombre_archivo : String
  ruta_origen : Option String
  presentado : Bool
  ruta_final_pdf : Option String
deriving DecidableEq

/-- Lookup in the `docs` dict, modelled as an association list with
distinct keys (the program builds it by assigning each of the nine
fixed keys once). -/
def dget : List (String × Documento) → String → Option Documento
  | [], _ => none
  | (k, d) :: t, key => if k = key then some d else dget t key

/-- Student record (`Alumno` dataclass, identical in both variants). -/
structure Alumno where
  carrera : String
  curp : String
  nombre : String
  primer_apellido : String
  segundo_apellido : String
  institucion : String
  fecha_terminacion : String
  ciclo_escolar : String
  promedio : String
  solicita_certificado : Bool
  solicita_autenticacion : Bool
  docs : List (String × Documento)

/-- Full name property: the three name parts joined and stripped. -/
def Alumno.nombre_completo (al : Alumno) : String :=
  pyStrip (al.nombre ++ " " ++ al.primer_apellido ++ " " ++ al.segundo_apellido)

/-- Presence mark of `app.py` (`Alumno.mark`): `"X" if self.docs.get(key)
and self.docs[key].presentado else ""`.  A `Documento` instance is always
truthy, so this is: key present with `presentado` true. -/
def Alumno.mark (al : Alumno) (key : String) : String :=
  match dget al.docs key with
  | some d => if d.presentado then "X" else ""
  | none => ""

/-- Presence mark of `certificados_uan_cm.py` (`Alumno.get_excel_mark`):
`docs[key].presentado` with the `KeyError` of an absent key caught and
turned into `""`. -/
def Alumno.get_excel_mark (al : Alumno) (key : String) : String :=
  match dget al.docs key with
  | some d => if d.presentado then "X" else ""
  | none => ""

/-- Inner loop of the template-clean routines: null every cell of row `r`
in the given columns, skipping `MergedCell` members. -/
def cleanCols (M : Nat → Nat → Bool) (r : Nat) (g : Grid) : List Nat → Grid
  | [] => g
  | c :: cs => cleanCols M r (if M r c then g else updVal g r c none) cs

/-- Outer loop of the template-clean routines over the given rows. -/
def cleanRows (M : Nat → Nat → Bool) (cols : List Nat) (g : Grid) : List Nat → Grid
  | [] => g
  | r :: rs => cleanRows M cols (cleanCols M r g cols) rs

/-- Marker test of `app.py._limpiar_machote`: the first-column value is a
string whose stripped lower-casing starts with `"ejemplo"`. -/
def esEjemploApp (v : Option Value) : Bool :=
  match v with
  | some (.str t) => startsWithL (lowerStr (pyStrip t)).data "ejemplo".data
  | _ => false

/-- Scan of `app.py._limpiar_machote` for the example marker row: first
row in `range(1, ws.max_row + 1)` whose first-column cell matches. -/
def findEjemploApp (ws : Sheet) : Option Nat :=
  (List.range' 1 ws.max_row).find? (fun r => esEjemploApp (ws.val r 1))

/-- Marker test of `app.py._limpiar_gestores`: a string whose upper-casing
contains `"ES MUY IMPORTANTE"`. -/
def esImportanteApp (v : Option Value) : Bool :=
  match v with
  | some (.str t) => containsL "ES MUY IMPORTANTE".data (upperStr t).data
  | _ => false

/-- Scan of `app.py._limpiar_gestores` for the notice marker row. -/
def findImportanteApp (ws : Sheet) : Option Nat :=
  (List.range' 1 ws.max_row).find? (fun r => esImportanteApp (ws.val r 1))

/-- Marker test of `certificados_uan_cm.py._limpiar_plantilla`:
`val and isinstance(val, str) and keyword in val` (a falsy empty string
fails the first conjunct). -/
def esKeywordCm (keyword : String) (v : Option Value) : Bool :=
  match v with
  | some (.str t) => (!t.data.isEmpty) && containsL keyword.data t.data
  | _ => false

/-- Scan of `certificados_uan_cm.py._limpiar_plantilla` over
`range(1, 80)` for the keyword row. -/
def findKeywordCm (ws : Sheet) (keyword : String) : Option Nat :=
  (List.range' 1 79).find? (fun r => esKeywordCm keyword (ws.val r 1))

/-- Template clean of `app.py._limpiar_machote`: after the "Ejemplo"
marker row, null the non-merged cells of rows `start_row + 1` to
`start_row + 24` (`range(start_row + 1, start_row + 25)`), columns 1-17. -/
def limpiar_machote_app (ws : Sheet) : Sheet :=
  match findEjemploApp ws with
  | none => ws
  | some start_row =>
    { ws with val := cleanRows ws.merged (List.range' 1 17) ws.val (List.range' (start_row + 1) 24) }

/-- Template clean of `app.py._limpiar_gestores`: null the non-merged
cells of rows 3 to `limit_row - 1`, columns 1-15, where `limit_row` is
the notice marker row (default 30 when no marker exists). -/
def limpiar_gestores_app (ws : Sheet) : Sheet :=
  let limit_row := (findImportanteApp ws).getD 30
  { ws with val := cleanRows ws.merged (List.range' 1 15) ws.val (List.range' 3 (limit_row - 3)) }

/-- Template clean of `certificados_uan_cm.py._limpiar_plantilla`: for the
machote (`keyword = "Ejemplo"`) rows `start_clean + 1` to
`start_clean + 19` and columns 1-18; for the gestores sheet rows 3 to
`start_clean - 1` and columns 1-16.  No marker: no change. -/
def limpiar_plantilla_cm (ws : Sheet) (keyword : String) : Sheet :=
  match findKeywordCm ws keyword with
  | none => ws
  | some start_clean =>
    if keyword = "Ejemplo" then
      { ws with val := cleanRows ws.merged (List.range' 1 18) ws.val (List.range' (start_clean + 1) 19) }
    else
      { ws with val := cleanRows ws.merged (List.range' 1 16) ws.val (List.range' 3 (start_clean - 3)) }

/-- State of `GestorExcel` between appends: the two worksheets and the two
next-free-row pointers. -/
structure GestorState where
  ws_machote : Sheet
  ws_gestores : Sheet
  row_m : Nat
  row_g : Nat

/-- Row written into the machote sheet by `agregar_alumno` (columns 1-17,
identical lists in both variants). -/
def datos_machote (al : Alumno) (num : Int) : List Value :=
  [.int num, .str al.curp, .str al.nombre_completo, .str al.ciclo_escolar,
   .str al.fecha_terminacion,
   .str (al.get_excel_mark "acta"), .str (al.get_excel_mark "cert_sec"),
   .str (al.get_excel_mark "curp_doc"),
   .str (al.get_excel_mark "fotos_inf"), .str (al.get_excel_mark "fotos_cred"),
   .str (al.get_excel_mark "fotos_tit"),
   .str (al.get_excel_mark "ine"), .str (al.get_excel_mark "comp_dom"),
   .str al.carrera,
   .str (if al.solicita_certificado then "X" else ""),
   .str (if al.solicita_autenticacion then "X" else ""),
   .str al.promedio]

/-- Row written into the gestores sheet by `agregar_alumno` (columns 1-15). -/
def datos_gestores (al : Alumno) (any_fotos : String) : List Value :=
  [.str al.carrera, .str al.curp, .str al.nombre, .str al.primer_apellido,
   .str al.segundo_apellido, .str al.institucion, .str al.fecha_terminacion,
   .str (al.get_excel_mark "cert_sec"), .str (al.get_excel_mark "acta"),
   .str any_fotos, .str (al.get_excel_mark "ine"),
   .str (al.get_excel_mark "comp_dom"), .str (al.get_excel_mark "ine_tutor"),
   .str al.ciclo_escolar, .str al.promedio]

/-- The loop `for i, val in enumerate(row_data, 1): ws.cell(row=r,
column=i).value = val`, started at column `i`. -/
def writeCells (g : Grid) (r : Nat) : Nat → List Value → Grid
  | _, [] => g
  | i, v :: vs => writeCells (updVal g r i (some v)) r (i + 1) vs

/-- Combined photo mark of `agregar_alumno`: `al.docs["fotos_inf"].presentado
or ...` over the three photo keys.  The direct dict indexing raises
`KeyError` when a key is absent, modelled by `none`. -/
def any_fotos_mark (al : Alumno) : Option String :=
  match dget al.docs "fotos_inf", dget al.docs "fotos_cred", dget al.docs "fotos_tit" with
  | some d1, some d2, some d3 =>
    some (if d1.presentado || d2.presentado || d3.presentado then "X" else "")
  | _, _, _ => none

/-- Append one student to both sheets (`GestorExcel.agregar_alumno`,
identical in both variants).  `none` models the `KeyError` raised in the
gestores block when a photo key is absent from `docs`; no claim concerns
the state left behind by that exception, so it is not carried. -/
def agregar_alumno (s : GestorState) (al : Alumno) : Option GestorState :=
  let r := s.row_m
  let prev := s.ws_machote.val (r - 1) 1
  let num := next_seq prev
  let wm := { s.ws_machote with val := writeCells s.ws_machote.val r 1 (datos_machote al num) }
  match any_fotos_mark al with
  | some anyf =>
    let wg := { s.ws_gestores with
                val := writeCells s.ws_gestores.val s.row_g 1 (datos_gestores al anyf) }
    some { ws_machote := wm, ws_gestores := wg, row_m := r + 1, row_g := s.row_g + 1 }
  | none => none

/-- Sequential appends of a session (each student fully processed before
the next, per the main loops of both variants); the first failing append
stops the run. -/
def agregar_varios (s : GestorState) : List Alumno → Option GestorState
  | [] => some s
  | al :: rest => (agregar_alumno s al).bind (fun s2 => agregar_varios s2 rest)

/-- The `while ws.cell(row=r, column=col_check).value: r += 1` scan of
`certificados_uan_cm.py._find_next_row`, stopping at the first cell whose
value is Python-falsy.  `fuel` bounds the loop; `none` means the bound
was hit before a falsy cell appeared. -/
def find_next_row (ws : Sheet) (col_check : Nat) : Nat → Nat → Option Nat
  | _, 0 => none
  | r, fuel + 1 =>
    if pyTruthy (ws.val r col_check) then find_next_row ws col_check (r + 1) fuel else some r

/-- Modelled from the spec: "scan downward from a fixed start row in a
designated anchor column until the first cell with no value is found".
Stops at the first cell holding `None`, under the same fuel convention as
`find_next_row`. -/
def first_no_value_row (ws : Sheet) (col_check : Nat) : Nat → Nat → Option Nat
  | _, 0 => none
  | r, fuel + 1 =>
    if ws.val r col_check = none then some r else first_no_value_row ws col_check (r + 1) fuel

/-- Cell test of `certificados_uan_cm.py._firmar_gestores`:
`v and isinstance(v, str) and "persona que solicita" in v.lower()`. -/
def firmar_cell (v : Option Value) : Bool :=
  match v with
  | some (.str t) => (!t.data.isEmpty) && containsL "persona que solicita".data (lowerStr t).data
  | _ => false

/-- Operator stamp of `certificados_uan_cm.py._firmar_gestores`: replace
the first matching cell in rows 1-59, columns 1-14 (row-major) by
`"Gestor: {nombre}"`; no match leaves the sheet unchanged. -/
def firmar_gestores (ws : Sheet) (gestor : String) : Sheet :=
  match ((List.range' 1 59).flatMap (fun r => (List.range' 1 14).map (fun c => (r, c)))).find?
      (fun rc => firmar_cell (ws.val rc.1 rc.2)) with
  | some rc => { ws with val := updVal ws.val rc.1 rc.2 (some (.str ("Gestor: " ++ gestor))) }
  | none => ws

/-- Machote workbook as loaded by `GestorExcel.__init__` of
`certificados_uan_cm.py`: the prior output file when it exists, otherwise
the cleaned template; then the gestor name is stamped into cell B29
(row 29, column 2). -/
def machote_cargado (output_machote : Option Sheet) (template_machote : Sheet)
    (gestor : String) : Sheet :=
  let wm0 := match output_machote with
    | some w => w
    | none => limpiar_plantilla_cm template_machote "Ejemplo"
  { wm0 with val := updVal wm0.val 29 2 (some (.str gestor)) }

/-- Gestores workbook as loaded by `GestorExcel.__init__` of
`certificados_uan_cm.py`: prior output or cleaned template, then the
operator stamp. -/
def gestores_cargado (output_gestores : Option Sheet) (template_gestores : Sheet)
    (gestor : String) : Sheet :=
  let wg0 := match output_gestores with
    | some w => w
    | none => limpiar_plantilla_cm template_gestores "ES MUY IMPORTANTE"
  firmar_gestores wg0 gestor

/-- Initialization of `GestorExcel` in `certificados_uan_cm.py`: load (or
clean) both workbooks, stamp the operator, then locate the two insertion
points once with `_find_next_row` (machote: column 1 from row 10;
gestores: column 2 from row 3). -/
def gestorExcel_init (output_machote : Option Sheet) (template_machote : Sheet)
    (output_gestores : Option Sheet) (template_gestores : Sheet)
    (gestor : String) (fuel : Nat) : Option GestorState :=
  let wm := machote_cargado output_machote template_machote gestor
  let wg := gestores_cargado output_gestores template_gestores gestor
  match find_next_row wm 1 10 fuel, find_next_row wg 2 3 fuel with
  | some rm, some rg => some { ws_machote := wm, ws_gestores := wg, row_m := rm, row_g := rg }
  | _, _ => none

/-- One page of a PDF document: either a page produced by the image
library's PDF encoder (carrying the color mode and resolution it was
encoded with, and the pixel content) or an ordinary page. -/
inductive Page where
  | fromImage (mode : String) (resolution : PyFloat) (data : Nat)
  | doc (id : Nat)
deriving DecidableEq

/-- Decoded raster image as seen through the image library: its color
mode (`"RGB"`, `"RGBA"`, `"P"`, `"L"`, `"CMYK"`, ...) and pixel content. -/
structure PILImage where
  mode : String
  data : Nat
deriving DecidableEq

/-- Contents of one file on disk: a PDF document, an image file, or bytes
of some other format. -/
inductive FileData where
  | pdf (pages : List Page)
  | image (im : PILImage)
  | other (id : Nat)
deriving DecidableEq

/-- Filesystem visible to the PDF pipeline: a partial map from path
strings to file contents. -/
abbrev FS := String → Option FileData

/-- Writing (or overwriting) one file. -/
def fsWrite (fs : FS) (p : String) (f : FileData) : FS :=
  fun q => if q = p then some f else fs q

/-- Model of `Path.rename`: the contents move from `src` to `dst`
(overwriting `dst`), and `src` ceases to exist. -/
def fsRename (fs : FS) (src dst : String) : FS :=
  fun q => if q = dst then fs src else if q = src then none else fs q

/-- Model of `PIL.Image.open`: succeeds exactly on a readable image file
(`None`, PDFs and other formats raise, caught by the callers below). -/
def pilOpen (fs : FS) (p : String) : Option PILImage :=
  match fs p with
  | some (.image im) => some im
  | _ => none

/-- Color modes the image library's PDF encoder accepts (a conservative
model of PIL's PDF plugin: plain bilevel, greyscale, RGB and CMYK). -/
def pdfSaveModes : List String := ["1", "L", "RGB", "CMYK"]

/-- Model of `image.save(pdf_path, "PDF", resolution=100.0)`: a supported
mode is encoded into a single-page PDF carrying that mode and
resolution; an unsupported mode raises (`none`). -/
def pilSaveAsPdf (im : PILImage) : Option FileData :=
  if im.mode ∈ pdfSaveModes then
    some (.pdf [.fromImage im.mode ⟨100, 1⟩ im.data])
  else none

/-- Image-to-PDF conversion (`convertir_imagen_a_pdf`, identical in both
variants): open the image, convert modes `"RGBA"` and `"P"` to `"RGB"`,
save as a PDF at resolution 100.  Any failure is caught and reported as
`False` with nothing written. -/
def convertir_imagen_a_pdf (fs : FS) (imagen_path pdf_path : String) : Bool × FS :=
  match pilOpen fs imagen_path with
  | none => (false, fs)
  | some im0 =>
    let im := if im0.mode = "RGBA" ∨ im0.mode = "P" then { im0 with mode := "RGB" } else im0
    match pilSaveAsPdf im with
    | some f => (true, fsWrite fs pdf_path f)
    | none => (false, fs)

/-- Copy helper of `certificados_uan_cm.py` (`safe_copy`): silently does
nothing when the source does not exist or equals the destination. -/
def safe_copy (fs : FS) (src dst : String) : FS :=
  match fs src with
  | none => fs
  | some f => if src = dst then fs else fsWrite fs dst f

/-- Extensions accepted as raster images by `procesar_documento_a_pdf`. -/
def image_exts : List String := [".png", ".jpg", ".jpeg", ".bmp", ".tif", ".tiff"]

/-- Document normalization of `certificados_uan_cm.py`
(`procesar_documento_a_pdf`): nothing when not submitted or no source;
otherwise copy the original as `{base}{ext}` via `safe_copy`, then for a
`.pdf` source copy it again as `{base}.pdf` and return that path, for an
image source convert it, and for any other extension return nothing. -/
def procesar_documento_a_pdf (fs : FS) (doc : Documento) (carpeta_destino : String) :
    Option String × FS :=
  if doc.presentado = false then (none, fs) else
  match doc.ruta_origen with
  | none => (none, fs)
  | some src =>
    let ext := lowerStr (pathSuffix src)
    let archivo_final := carpeta_destino ++ "/" ++ doc.nombre_archivo ++ ext
    let fs1 := safe_copy fs src archivo_final
    let pdf_final := carpeta_destino ++ "/" ++ doc.nombre_archivo ++ ".pdf"
    if ext = ".pdf" then (some pdf_final, safe_copy fs1 src pdf_final)
    else if ext ∈ image_exts then
      match convertir_imagen_a_pdf fs1 src pdf_final with
      | (true, fs2) => (some pdf_final, fs2)
      | (false, fs2) => (none, fs2)
    else (none, fs1)

/-- Per-document step of the main loop of `certificados_uan_cm.py` (lines
632-638): prefix the physical name with the CURP, normalize, and when a
new PDF path came back record it in the document and in the session list. -/
def registrar_documento (fs : FS) (curp : String) (doc : Documento) (carpeta : String)
    (pdfs_alumno : List String) : Documento × List String × FS :=
  let doc1 := { doc with nombre_archivo := curp ++ "_" ++ doc.nombre_archivo }
  match procesar_documento_a_pdf fs doc1 carpeta with
  | (some p, fs2) =>
    if p ∈ pdfs_alumno then (doc1, pdfs_alumno, fs2)
    else ({ doc1 with ruta_final_pdf := some p }, pdfs_alumno ++ [p], fs2)
  | (none, fs2) => (doc1, pdfs_alumno, fs2)

/-- Pages accumulated by the `merger.append` loop of `unir_pdfs_en_uno`:
each input that exists and parses as a PDF contributes its pages in list
order; a file that fails to append is skipped (the exception is caught). -/
def merge_pages (fs : FS) : List String → List Page
  | [] => []
  | p :: rest =>
    match fs p with
    | some (.pdf pgs) => pgs ++ merge_pages fs rest
    | _ => merge_pages fs rest

/-- Merge of `app.py` (`unir_pdfs_en_uno`): zero accumulated pages
reports `False` and writes nothing; otherwise the merged document is
written to `salida` and `True` is returned. -/
def unir_pdfs_en_uno_app (fs : FS) (lista_pdfs : List String) (salida : String) : Bool × FS :=
  let pages := merge_pages fs lista_pdfs
  if pages.length = 0 then (false, fs)
  else (true, fsWrite fs salida (.pdf pages))

/-- Merge of `certificados_uan_cm.py` (`unir_pdfs_en_uno`): returns
nothing and always writes the merged document to `salida`, however many
pages it has. -/
def unir_pdfs_en_uno_cm (fs : FS) (lista_pdfs : List String) (salida : String) : FS :=
  fsWrite fs salida (.pdf (merge_pages fs lista_pdfs))

/-- Base directory for the per-student folders and the global archive. -/
def BASE_ALUMNOS_DIR : String := "ALUMNOS_UAN"

/-- Fixed file name of the running global archive. -/
def PDF_GLOBAL_NOMBRE : String := "PDF_GLOBAL_TODOS_LOS_ALUMNOS.pdf"

/-- Full path of the global archive (`BASE_ALUMNOS_DIR / PDF_GLOBAL_NOMBRE`). -/
def ruta_global : String := BASE_ALUMNOS_DIR ++ "/" ++ PDF_GLOBAL_NOMBRE

/-- Backup name given to a pre-existing global archive:
`ruta_global.with_suffix(".bak.pdf")`. -/
def bak_global : String := with_suffix ruta_global ".bak.pdf"

/-- Global-archive accumulation at the end of `main` in
`certificados_uan_cm.py` (lines 664-682): with a non-empty session list,
an existing global archive is renamed to the backup name and merged
first, followed by the session's student archives in order. -/
def pdf_global_cierre (fs : FS) (todos_los_pdfs_generados : List String) : FS :=
  if todos_los_pdfs_generados.isEmpty then fs
  else
    match fs ruta_global with
    | some _ =>
      let fs2 := fsRename fs ruta_global bak_global
      unir_pdfs_en_uno_cm fs2 (bak_global :: todos_los_pdfs_generados) ruta_global
    | none => unir_pdfs_en_uno_cm fs todos_los_pdfs_generados ruta_global

/-! ### Pointwise characterizations of the mutation loops -/

theorem updVal_at (g : Grid) (r c : Nat) (v : Option Value) :
    updVal g r c v r c = v := by
  simp [updVal]

theorem updVal_ne (g : Grid) (r c : Nat) (v : Option Value) (r0 c0 : Nat)
    (h : ¬(r0 = r ∧ c0 = c)) : updVal g r c v r0 c0 = g r0 c0 := by
  simp [updVal, h]

/-- Cell left by the row-writing loop: inside the written span the value
comes from the data list, outside it the grid is untouched. -/
theorem writeCells_val (r : Nat) (vs : List Value) :
    ∀ (g : Grid) (i r0 c0 : Nat),
      writeCells g r i vs r0 c0 =
        if r0 = r ∧ i ≤ c0 ∧ c0 < i + vs.length then vs[c0 - i]? else g r0 c0 := by
  induction vs with
  | nil =>
    intro g i r0 c0
    rw [writeCells, if_neg (by simp only [List.length_nil]; omega)]
  | cons v vs ih =>
    intro g i r0 c0
    rw [writeCells, ih]
    simp only [List.length_cons]
    by_cases hr : r0 = r
    · rcases Nat.lt_trichotomy c0 i with hc | hc | hc
      · rw [if_neg (by omega), if_neg (by omega), updVal_ne g r i (some v) r0 c0 (by omega)]
      · rw [if_neg (by omega), if_pos (by exact ⟨hr, by omega, by omega⟩), hr, hc, updVal_at]
        simp
      · by_cases hin : c0 < i + (vs.length + 1)
        · rw [if_pos (by exact ⟨hr, by omega, by omega⟩), if_pos (by exact ⟨hr, by omega, by omega⟩)]
          have hsub : c0 - i = (c0 - (i + 1)) + 1 := by omega
          rw [hsub]
          simp
        · rw [if_neg (by omega), if_neg (by omega), updVal_ne g r i (some v) r0 c0 (by omega)]
    · rw [if_neg (by omega), if_neg (by omega), updVal_ne g r i (some v) r0 c0 (by omega)]

/-- Cell left by the per-row clean loop over a list of columns. -/
theorem cleanCols_val (M : Nat → Nat → Bool) (r : Nat) :
    ∀ (cs : List Nat) (g : Grid) (r0 c0 : Nat),
      cleanCols M r g cs r0 c0 =
        if r0 = r ∧ c0 ∈ cs ∧ M r c0 = false then none else g r0 c0 := by
  intro cs
  induction cs with
  | nil => intro g r0 c0; simp [cleanCols]
  | cons c cs ih =>
    intro g r0 c0
    rw [cleanCols]
    cases hMc : M r c with
    | true =>
      rw [if_pos rfl, ih]
      by_cases h : r0 = r ∧ c0 ∈ cs ∧ M r c0 = false
      · rw [if_pos h, if_pos ⟨h.1, List.mem_cons_of_mem c h.2.1, h.2.2⟩]
      · rw [if_neg h, if_neg (fun h2 => h ⟨h2.1, by
          rcases List.mem_cons.mp h2.2.1 with he | hm
          · exact absurd (he ▸ h2.2.2) (by simp [hMc])
          · exact hm, h2.2.2⟩)]
    | false =>
      rw [if_neg Bool.false_ne_true, ih]
      by_cases h : r0 = r ∧ c0 ∈ cs ∧ M r c0 = false
      · rw [if_pos h, if_pos ⟨h.1, List.mem_cons_of_mem c h.2.1, h.2.2⟩]
      · rw [if_neg h]
        by_cases hrc : r0 = r ∧ c0 = c
        · rw [hrc.1, hrc.2, updVal_at,
            if_pos ⟨rfl, List.mem_cons_self c cs, hMc⟩]
        · rw [updVal_ne g r c none r0 c0 hrc, if_neg (fun h2 => by
            rcases List.mem_cons.mp h2.2.1 with he | hm
            · exact hrc ⟨h2.1, he⟩
            · exact h ⟨h2.1, hm, h2.2.2⟩)]

/-- Cell left by the full clean loop over a row range and a column range. -/
theorem cleanRows_val (M : Nat → Nat → Bool) (cols : List Nat) :
    ∀ (rs : List Nat) (g : Grid) (r0 c0 : Nat),
      cleanRows M cols g rs r0 c0 =
        if r0 ∈ rs ∧ c0 ∈ cols ∧ M r0 c0 = false then none else g r0 c0 := by
  intro rs
  induction rs with
  | nil => intro g r0 c0; simp [cleanRows]
  | cons r rs ih =>
    intro g r0 c0
    rw [cleanRows, ih, cleanCols_val]
    by_cases hin : r0 ∈ rs ∧ c0 ∈ cols ∧ M r0 c0 = false
    · rw [if_pos hin, if_pos ⟨List.mem_cons_of_mem r hin.1, hin.2⟩]
    · rw [if_neg hin]
      by_cases hr : r0 = r
      · subst hr
        by_cases hc : c0 ∈ cols ∧ M r0 c0 = false
        · rw [if_pos ⟨rfl, hc⟩, if_pos ⟨List.mem_cons_self r0 rs, hc⟩]
        · rw [if_neg (fun h2 => hc ⟨h2.2.1, h2.2.2⟩), if_neg (fun h2 => hc ⟨h2.2.1, h2.2.2⟩)]
      · rw [if_neg (fun h2 => hr h2.1), if_neg (fun h2 => by
          rcases List.mem_cons.mp h2.1 with he | hm
          · exact hr he
          · exact hin ⟨hm, h2.2⟩)]

/-- Shorthand for the state produced by one successful append, used by
the lemmas below. -/
def agregar_resultado (s : GestorState) (al : Alumno) (anyf : String) : GestorState :=
  { ws_machote := { s.ws_machote with
      val := (writeCells s.ws_machote.val s.row_m 1
        (datos_machote al (next_seq (s.ws_machote.val (s.row_m - 1) 1)))) },
    ws_gestores := { s.ws_gestores with
      val := (writeCells s.ws_gestores.val s.row_g 1 (datos_gestores al anyf)) },
    row_m := s.row_m + 1, row_g := s.row_g + 1 }

/-- Unfolded form of one append: the machote row is written with the
sequence number read from the cell above, the gestores row with the
combined photo mark, and both pointers advance by one; an absent photo
key yields the `KeyError` (`none`). -/
theorem agregar_alumno_eq (s : GestorState) (al : Alumno) :
    agregar_alumno s al = (any_fotos_mark al).map (agregar_resultado s al) := by
  rw [agregar_alumno]
  cases any_fotos_mark al <;> rfl

/-- The row scan stops at the first Python-falsy cell at or after the
start row: everything strictly before it in the anchor column is truthy. -/
theorem find_next_row_spec (ws : Sheet) (col : Nat) :
    ∀ (fuel r r2 : Nat), find_next_row ws col r fuel = some r2 →
      r ≤ r2 ∧ pyTruthy (ws.val r2 col) = false ∧
      ∀ k, r ≤ k → k < r2 → pyTruthy (ws.val k col) = true := by
  intro fuel
  induction fuel with
  | zero => intro r r2 h; simp [find_next_row] at h
  | succ fuel ih =>
    intro r r2 h
    rw [find_next_row] at h
    by_cases ht : pyTruthy (ws.val r col) = true
    · rw [if_pos ht] at h
      obtain ⟨h1, h2, h3⟩ := ih (r + 1) r2 h
      refine ⟨by omega, h2, fun k hk1 hk2 => ?_⟩
      rcases Nat.eq_or_lt_of_le hk1 with he | hlt
      · rw [← he]; exact ht
      · exact h3 k hlt hk2
    · rw [if_neg ht] at h
      obtain rfl : r = r2 := by injection h
      exact ⟨Nat.le_refl r, by simpa using ht, fun k hk1 hk2 => absurd hk2 (by omega)⟩

/-! ### Concrete fixtures used by the witnesses and counterexamples -/

/-- Empty worksheet fixture. -/
def exSheet : Sheet := { val := fun _ _ => none, merged := fun _ _ => false, max_row := 40 }

/-- Document fixture for one category. -/
def exDoc (k : String) (p : Bool) : Documento :=
  { nombre_clave := k, nombre_archivo := k, ruta_origen := none,
    presentado := p, ruta_final_pdf := none }

/-- Student fixture with all nine document categories present. -/
def exAl : Alumno :=
  { carrera := "LIC", curp := "CURP1", nombre := "ANA", primer_apellido := "PEREZ",
    segundo_apellido := "", institucion := "SEC 1", fecha_terminacion := "01/01/2024",
    ciclo_escolar := "2023-2024", promedio := "9", solicita_certificado := true,
    solicita_autenticacion := false,
    docs := [("cert_sec", exDoc "cert_sec" true), ("acta", exDoc "acta" true),
             ("curp_doc", exDoc "curp_doc" false), ("fotos_inf", exDoc "fotos_inf" true),
             ("fotos_cred", exDoc "fotos_cred" false), ("fotos_tit", exDoc "fotos_tit" false),
             ("ine", exDoc "ine" false), ("comp_dom", exDoc "comp_dom" false),
             ("ine_tutor", exDoc "ine_tutor" false)] }

/-- Engine-state fixture after initialization. -/
def exState : GestorState :=
  { ws_machote := exSheet, ws_gestores := exSheet, row_m := 10, row_g := 3 }

/-! ### Claims -/

/-- C1: each successful append writes its row at the sheet's current
next-free row and advances that sheet's counter by exactly one
(independently on the two sheets), so a sequence of N successful appends
advances both counters by exactly N. -/
theorem C1_agregar_advances_row_counters :
    (∀ (s : GestorState) (al : Alumno),
      (agregar_alumno s al).isSome = true →
        (agregar_alumno s al).map GestorState.row_m = some (s.row_m + 1) ∧
        (agregar_alumno s al).map GestorState.row_g = some (s.row_g + 1) ∧
        (∀ c, 1 ≤ c → c ≤ 17 →
          (agregar_alumno s al).map (fun t => t.ws_machote.val s.row_m c) =
            some ((datos_machote al (next_seq (s.ws_machote.val (s.row_m - 1) 1)))[c - 1]?)) ∧
        (∀ anyf, any_fotos_mark al = some anyf → ∀ c, 1 ≤ c → c ≤ 15 →
          (agregar_alumno s al).map (fun t => t.ws_gestores.val s.row_g c) =
            some ((datos_gestores al anyf)[c - 1]?))) ∧
    (∀ (L : List Alumno) (s : GestorState),
      (agregar_varios s L).isSome = true →
        (agregar_varios s L).map GestorState.row_m = some (s.row_m + L.length) ∧
        (agregar_varios s L).map GestorState.row_g = some (s.row_g + L.length)) := by
  constructor
  · intro s al h
    rw [agregar_alumno_eq] at h ⊢
    cases hm : any_fotos_mark al with
    | none => rw [hm] at h; simp at h
    | some anyf =>
      refine ⟨rfl, rfl, ?_, ?_⟩
      · intro c h1 h17
        simp only [Option.map_some', agregar_resultado]
        rw [writeCells_val]
        rw [if_pos ⟨rfl, h1, by simp [datos_machote]; omega⟩]
      · intro anyf2 hm2 c h1 h15
        obtain rfl : anyf = anyf2 := by injection hm2
        simp only [Option.map_some', agregar_resultado]
        rw [writeCells_val]
        rw [if_pos ⟨rfl, h1, by simp [datos_gestores]; omega⟩]
  · intro L
    induction L with
    | nil => intro s h; simp [agregar_varios]
    | cons al rest ih =>
      intro s h
      rw [agregar_varios] at h ⊢
      cases ha : agregar_alumno s al with
      | none => rw [ha] at h; simp at h
      | some s2 =>
        rw [ha] at h
        simp only [Option.some_bind] at h ⊢
        have hrow : s2.row_m = s.row_m + 1 ∧ s2.row_g = s.row_g + 1 := by
          rw [agregar_alumno_eq] at ha
          cases hm : any_fotos_mark al with
          | none => rw [hm] at ha; simp at ha
          | some anyf =>
            rw [hm] at ha
            simp only [Option.map_some'] at ha
            obtain rfl : agregar_resultado s al anyf = s2 := by injection ha
            exact ⟨rfl, rfl⟩
        obtain ⟨e1, e2⟩ := ih s2 h
        rw [e1, e2, hrow.1, hrow.2]
        constructor <;> · congr 1; simp; omega

/-- Witness for C1: two appends on a fresh state advance both counters by
exactly two. -/
theorem C1_witness :
    (agregar_varios exState [exAl, exAl]).isSome = true ∧
    (agregar_varios exState [exAl, exAl]).map GestorState.row_m = some (exState.row_m + 2) ∧
    (agregar_varios exState [exAl, exAl]).map GestorState.row_g = some (exState.row_g + 2) := by
  refine ⟨by rfl, ?_, ?_⟩
  · exact (C1_agregar_advances_row_counters.2 [exAl, exAl] exState (by rfl)).1
  · exact (C1_agregar_advances_row_counters.2 [exAl, exAl] exState (by rfl)).2

/-- C2: the one-time template clean nulls only non-merged cells inside the
designated window (main report: the 25 rows after the "Ejemplo" marker
row; agent report: rows 3 up to the "ES MUY IMPORTANTE" marker row) and
changes nothing outside that window and no merged-member cell, in both
front-end variants. -/
theorem C2_limpiar_frame :
    (∀ (ws : Sheet) (R : Nat), findEjemploApp ws = some R →
      (∀ r c, ws.merged r c = true ∨ r < R + 1 ∨ R + 25 < r →
        (limpiar_machote_app ws).val r c = ws.val r c) ∧
      (∀ r c, (limpiar_machote_app ws).val r c ≠ ws.val r c →
        R + 1 ≤ r ∧ r ≤ R + 25 ∧ ws.merged r c = false ∧
          (limpiar_machote_app ws).val r c = none)) ∧
    (∀ (ws : Sheet) (R : Nat), findImportanteApp ws = some R →
      (∀ r c, ws.merged r c = true ∨ r < 3 ∨ R < r →
        (limpiar_gestores_app ws).val r c = ws.val r c) ∧
      (∀ r c, (limpiar_gestores_app ws).val r c ≠ ws.val r c →
        3 ≤ r ∧ r ≤ R ∧ ws.merged r c = false ∧
          (limpiar_gestores_app ws).val r c = none)) ∧
    (∀ (ws : Sheet) (R : Nat), findKeywordCm ws "Ejemplo" = some R →
      (∀ r c, ws.merged r c = true ∨ r < R + 1 ∨ R + 25 < r →
        (limpiar_plantilla_cm ws "Ejemplo").val r c = ws.val r c) ∧
      (∀ r c, (limpiar_plantilla_cm ws "Ejemplo").val r c ≠ ws.val r c →
        R + 1 ≤ r ∧ r ≤ R + 25 ∧ ws.merged r c = false ∧
          (limpiar_plantilla_cm ws "Ejemplo").val r c = none)) ∧
    (∀ (ws : Sheet) (R : Nat), findKeywordCm ws "ES MUY IMPORTANTE" = some R →
      (∀ r c, ws.merged r c = true ∨ r < 3 ∨ R < r →
        (limpiar_plantilla_cm ws "ES MUY IMPORTANTE").val r c = ws.val r c) ∧
      (∀ r c, (limpiar_plantilla_cm ws "ES MUY IMPORTANTE").val r c ≠ ws.val r c →
        3 ≤ r ∧ r ≤ R ∧ ws.merged r c = false ∧
          (limpiar_plantilla_cm ws "ES MUY IMPORTANTE").val r c = none)) := by
  refine ⟨?_, ?_, ?_, ?_⟩
  · intro ws R hR
    have hv : ∀ r c, (limpiar_machote_app ws).val r c =
        if r ∈ List.range' (R + 1) 24 ∧ c ∈ List.range' 1 17 ∧ ws.merged r c = false
        then none else ws.val r c := by
      intro r c
      rw [limpiar_machote_app, hR]
      exact cleanRows_val ws.merged (List.range' 1 17) (List.range' (R + 1) 24) ws.val r c
    constructor
    · intro r c hout
      rw [hv]
      rcases hout with hm | hlt | hgt
      · rw [if_neg (fun h2 => by rw [hm] at h2; exact absurd h2.2.2 (by simp))]
      · rw [if_neg (fun h2 => by have := List.mem_range'_1.mp h2.1; omega)]
      · rw [if_neg (fun h2 => by have := List.mem_range'_1.mp h2.1; omega)]
    · intro r c hch
      rw [hv] at hch
      by_cases h2 : r ∈ List.range' (R + 1) 24 ∧ c ∈ List.range' 1 17 ∧ ws.merged r c = false
      · have hr := List.mem_range'_1.mp h2.1
        refine ⟨by omega, by omega, h2.2.2, ?_⟩
        rw [hv, if_pos h2]
      · rw [if_neg h2] at hch
        exact absurd rfl hch
  · intro ws R hR
    have hlim : (findImportanteApp ws).getD 30 = R := by rw [hR]; rfl
    have hv : ∀ r c, (limpiar_gestores_app ws).val r c =
        if r ∈ List.range' 3 (R - 3) ∧ c ∈ List.range' 1 15 ∧ ws.merged r c = false
        then none else ws.val r c := by
      intro r c
      rw [limpiar_gestores_app]
      rw [hlim]
      exact cleanRows_val ws.merged (List.range' 1 15) (List.range' 3 (R - 3)) ws.val r c
    constructor
    · intro r c hout
      rw [hv]
      rcases hout with hm | hlt | hgt
      · rw [if_neg (fun h2 => by rw [hm] at h2; exact absurd h2.2.2 (by simp))]
      · rw [if_neg (fun h2 => by have := List.mem_range'_1.mp h2.1; omega)]
      · rw [if_neg (fun h2 => by have := List.mem_range'_1.mp h2.1; omega)]
    · intro r c hch
      rw [hv] at hch
      by_cases h2 : r ∈ List.range' 3 (R - 3) ∧ c ∈ List.range' 1 15 ∧ ws.merged r c = false
      · have hr := List.mem_range'_1.mp h2.1
        refine ⟨by omega, by omega, h2.2.2, ?_⟩
        rw [hv, if_pos h2]
      · rw [if_neg h2] at hch
        exact absurd rfl hch
  · intro ws R hR
    have hv : ∀ r c, (limpiar_plantilla_cm ws "Ejemplo").val r c =
        if r ∈ List.range' (R + 1) 19 ∧ c ∈ List.range' 1 18 ∧ ws.merged r c = false
        then none else ws.val r c := by
      intro r c
      have he : limpiar_plantilla_cm ws "Ejemplo" =
          { ws with val := cleanRows ws.merged (List.range' 1 18) ws.val (List.range' (R + 1) 19) } := by
        rw [limpiar_plantilla_cm, hR]
        rfl
      rw [he]
      exact cleanRows_val ws.merged (List.range' 1 18) (List.range' (R + 1) 19) ws.val r c
    constructor
    · intro r c hout
      rw [hv]
      rcases hout with hm | hlt | hgt
      · rw [if_neg (fun h2 => by rw [hm] at h2; exact absurd h2.2.2 (by simp))]
      · rw [if_neg (fun h2 => by have := List.mem_range'_1.mp h2.1; omega)]
      · rw [if_neg (fun h2 => by have := List.mem_range'_1.mp h2.1; omega)]
    · intro r c hch
      rw [hv] at hch
      by_cases h2 : r ∈ List.range' (R + 1) 19 ∧ c ∈ List.range' 1 18 ∧ ws.merged r c = false
      · have hr := List.mem_range'_1.mp h2.1
        refine ⟨by omega, by omega, h2.2.2, ?_⟩
        rw [hv, if_pos h2]
      · rw [if_neg h2] at hch
        exact absurd rfl hch
  · intro ws R hR
    have hv : ∀ r c, (limpiar_plantilla_cm ws "ES MUY IMPORTANTE").val r c =
        if r ∈ List.range' 3 (R - 3) ∧ c ∈ List.range' 1 16 ∧ ws.merged r c = false
        then none else ws.val r c := by
      intro r c
      have he : limpiar_plantilla_cm ws "ES MUY IMPORTANTE" =
          { ws with val := cleanRows ws.merged (List.range' 1 16) ws.val (List.range' 3 (R - 3)) } := by
        rw [limpiar_plantilla_cm, hR]
        rfl
      rw [he]
      exact cleanRows_val ws.merged (List.range' 1 16) (List.range' 3 (R - 3)) ws.val r c
    constructor
    · intro r c hout
      rw [hv]
      rcases hout with hm | hlt | hgt
      · rw [if_neg (fun h2 => by rw [hm] at h2; exact absurd h2.2.2 (by simp))]
      · rw [if_neg (fun h2 => by have := List.mem_range'_1.mp h2.1; omega)]
      · rw [if_neg (fun h2 => by have := List.mem_range'_1.mp h2.1; omega)]
    · intro r c hch
      rw [hv] at hch
      by_cases h2 : r ∈ List.range' 3 (R - 3) ∧ c ∈ List.range' 1 16 ∧ ws.merged r c = false
      · have hr := List.mem_range'_1.mp h2.1
        refine ⟨by omega, by omega, h2.2.2, ?_⟩
        rw [hv, if_pos h2]
      · rw [if_neg h2] at hch
        exact absurd rfl hch

/-- Machote-template fixture for the C2 witness: "ejemplo" marker in row
5, a merged member cell at (6,2), data everywhere up to row 40. -/
def c2ws_m : Sheet :=
  { val := fun r c =>
      if r = 5 ∧ c = 1 then some (.str "ejemplo: juan perez")
      else if r ≤ 40 then some (.int 1) else none,
    merged := fun r c => r = 6 && c = 2,
    max_row := 40 }

/-- Gestores-template fixture for the C2 witness: notice marker in row 7. -/
def c2ws_g : Sheet :=
  { val := fun r c =>
      if r = 7 ∧ c = 1 then some (.str "nota: es muy importante leer esto")
      else if r ≤ 40 then some (.int 2) else none,
    merged := fun _ _ => false,
    max_row := 40 }

/-- Machote-template fixture for the cm-variant clean in the C2 witness. -/
def c2ws_m2 : Sheet :=
  { val := fun r c =>
      if r = 4 ∧ c = 1 then some (.str "Ejemplo 1")
      else if r ≤ 40 then some (.int 3) else none,
    merged := fun _ _ => false,
    max_row := 40 }

/-- Gestores-template fixture for the cm-variant clean in the C2 witness. -/
def c2ws_g2 : Sheet :=
  { val := fun r c =>
      if r = 9 ∧ c = 1 then some (.str "OJO: ES MUY IMPORTANTE FIRMAR")
      else if r ≤ 40 then some (.int 4) else none,
    merged := fun _ _ => false,
    max_row := 40 }

/-- Witness for C2: on the four fixtures the markers are found where
expected, a cell outside the window (the marker row itself, a row past
the window) and a merged member cell inside the window are untouched. -/
theorem C2_witness :
    findEjemploApp c2ws_m = some 5 ∧
    (limpiar_machote_app c2ws_m).val 5 1 = c2ws_m.val 5 1 ∧
    (limpiar_machote_app c2ws_m).val 6 2 = c2ws_m.val 6 2 ∧
    findImportanteApp c2ws_g = some 7 ∧
    (limpiar_gestores_app c2ws_g).val 2 1 = c2ws_g.val 2 1 ∧
    findKeywordCm c2ws_m2 "Ejemplo" = some 4 ∧
    (limpiar_plantilla_cm c2ws_m2 "Ejemplo").val 30 3 = c2ws_m2.val 30 3 ∧
    findKeywordCm c2ws_g2 "ES MUY IMPORTANTE" = some 9 ∧
    (limpiar_plantilla_cm c2ws_g2 "ES MUY IMPORTANTE").val 10 1 = c2ws_g2.val 10 1 := by
  have h1 : findEjemploApp c2ws_m = some 5 := by decide
  have h2 : findImportanteApp c2ws_g = some 7 := by decide
  have h3 : findKeywordCm c2ws_m2 "Ejemplo" = some 4 := by decide
  have h4 : findKeywordCm c2ws_g2 "ES MUY IMPORTANTE" = some 9 := by decide
  refine ⟨h1, ?_, ?_, h2, ?_, h3, ?_, h4, ?_⟩
  · exact (C2_limpiar_frame.1 c2ws_m 5 h1).1 5 1 (Or.inr (Or.inl (by omega)))
  · exact (C2_limpiar_frame.1 c2ws_m 5 h1).1 6 2 (Or.inl (by decide))
  · exact (C2_limpiar_frame.2.1 c2ws_g 7 h2).1 2 1 (Or.inr (Or.inl (by omega)))
  · exact (C2_limpiar_frame.2.2.1 c2ws_m2 4 h3).1 30 3 (Or.inr (Or.inr (by omega)))
  · exact (C2_limpiar_frame.2.2.2 c2ws_g2 9 h4).1 10 1 (Or.inr (Or.inr (by omega)))

/-- C10: an append writes only the machote cells (row_m, 1..17) and the
gestores cells (row_g, 1..15); every other cell of both workbooks is left
unchanged; and the only cell it reads is machote (row_m - 1, 1): two
states agreeing there (with the same row pointers) are written the same
row values, and succeed or fail together. -/
theorem C10_agregar_frame_and_reads :
    ∀ (s : GestorState) (al : Alumno),
      (∀ r c, ¬(r = s.row_m ∧ 1 ≤ c ∧ c ≤ 17) →
        (agregar_alumno s al).map (fun t => t.ws_machote.val r c) =
          (agregar_alumno s al).map (fun _ => s.ws_machote.val r c)) ∧
      (∀ r c, ¬(r = s.row_g ∧ 1 ≤ c ∧ c ≤ 15) →
        (agregar_alumno s al).map (fun t => t.ws_gestores.val r c) =
          (agregar_alumno s al).map (fun _ => s.ws_gestores.val r c)) ∧
      (∀ s2 : GestorState, s2.row_m = s.row_m → s2.row_g = s.row_g →
        s2.ws_machote.val (s.row_m - 1) 1 = s.ws_machote.val (s.row_m - 1) 1 →
        (agregar_alumno s2 al).isSome = (agregar_alumno s al).isSome ∧
        (∀ c, 1 ≤ c → c ≤ 17 →
          (agregar_alumno s2 al).map (fun t => t.ws_machote.val s.row_m c) =
            (agregar_alumno s al).map (fun t => t.ws_machote.val s.row_m c)) ∧
        (∀ c, 1 ≤ c → c ≤ 15 →
          (agregar_alumno s2 al).map (fun t => t.ws_gestores.val s.row_g c) =
            (agregar_alumno s al).map (fun t => t.ws_gestores.val s.row_g c))) := by
  intro s al
  refine ⟨?_, ?_, ?_⟩
  · intro r c hout
    rw [agregar_alumno_eq]
    cases any_fotos_mark al with
    | none => rfl
    | some anyf =>
      simp only [Option.map_some', agregar_resultado]
      rw [writeCells_val, if_neg (fun h2 => hout ⟨h2.1, h2.2.1, by
        have := h2.2.2
        simp only [datos_machote, List.length_cons, List.length_nil] at this
        omega⟩)]
  · intro r c hout
    rw [agregar_alumno_eq]
    cases any_fotos_mark al with
    | none => rfl
    | some anyf =>
      simp only [Option.map_some', agregar_resultado]
      rw [writeCells_val, if_neg (fun h2 => hout ⟨h2.1, h2.2.1, by
        have := h2.2.2
        simp only [datos_gestores, List.length_cons, List.length_nil] at this
        omega⟩)]
  · intro s2 hm hg hprev
    rw [agregar_alumno_eq, agregar_alumno_eq]
    cases any_fotos_mark al with
    | none => exact ⟨rfl, fun c h1 h2 => rfl, fun c h1 h2 => rfl⟩
    | some anyf =>
      refine ⟨rfl, ?_, ?_⟩
      · intro c h1 h17
        simp only [Option.map_some', agregar_resultado]
        rw [writeCells_val, writeCells_val, hm, hprev]
        rw [if_pos ⟨rfl, h1, by simp [datos_machote]; omega⟩,
          if_pos ⟨rfl, h1, by simp [datos_machote]; omega⟩]
      · intro c h1 h15
        simp only [Option.map_some', agregar_resultado]
        rw [writeCells_val, writeCells_val, hg]
        rw [if_pos ⟨rfl, h1, by simp [datos_gestores]; omega⟩,
          if_pos ⟨rfl, h1, by simp [datos_gestores]; omega⟩]

/-- Second engine-state fixture for the C10 witness: an unrelated machote
cell differs from `exState`, the row pointers and the cell above the
insertion row agree. -/
def exState2 : GestorState :=
  { ws_machote := { exSheet with val := updVal exSheet.val 50 1 (some (.int 9)) },
    ws_gestores := exSheet, row_m := 10, row_g := 3 }

/-- Witness for C10: the append leaves cell (1,1) of both sheets alone,
and two states differing only in an unread cell get the same machote
row written. -/
theorem C10_witness :
    (agregar_alumno exState exAl).map (fun t => t.ws_machote.val 1 1) =
      (agregar_alumno exState exAl).map (fun _ => exState.ws_machote.val 1 1) ∧
    (agregar_alumno exState exAl).map (fun t => t.ws_gestores.val 1 1) =
      (agregar_alumno exState exAl).map (fun _ => exState.ws_gestores.val 1 1) ∧
    (agregar_alumno exState2 exAl).isSome = (agregar_alumno exState exAl).isSome ∧
    (agregar_alumno exState2 exAl).map (fun t => t.ws_machote.val 10 2) =
      (agregar_alumno exState exAl).map (fun t => t.ws_machote.val 10 2) := by
  refine ⟨?_, ?_, ?_, ?_⟩
  · exact (C10_agregar_frame_and_reads exState exAl).1 1 1 (by decide)
  · exact (C10_agregar_frame_and_reads exState exAl).2.1 1 1 (by decide)
  · exact ((C10_agregar_frame_and_reads exState exAl).2.2 exState2 rfl rfl rfl).1
  · exact ((C10_agregar_frame_and_reads exState exAl).2.2 exState2 rfl rfl rfl).2.1
      2 (by omega) (by omega)

/-- C3 counterexample: merging an empty list through the console variant
(`certificados_uan_cm.unir_pdfs_en_uno`) accumulates zero pages, yet the
function — whose return type carries no success flag at all — still
writes a zero-page document at the output path.  The claim that every
variant "reports failure to its caller and no usable output file is
produced" is therefore false on this variant. -/
theorem C3_counterexample :
    merge_pages (fun _ => none) [] = [] ∧
    unir_pdfs_en_uno_cm (fun _ => none) [] (BASE_ALUMNOS_DIR ++ "/salida.pdf")
        (BASE_ALUMNOS_DIR ++ "/salida.pdf") = some (.pdf []) := by
  exact ⟨rfl, rfl⟩

/-- C3 amended: the web variant (`app.py`) returns `False` and writes
nothing when zero pages were accumulated; the console variant returns
nothing and always writes the merged document at the output path, even
when it has zero pages. -/
theorem C3_amended_zero_page_merge :
    (∀ (fs : FS) (lista : List String) (salida : String),
      merge_pages fs lista = [] →
      unir_pdfs_en_uno_app fs lista salida = (false, fs)) ∧
    (∀ (fs : FS) (lista : List String) (salida : String),
      unir_pdfs_en_uno_cm fs lista salida salida = some (.pdf (merge_pages fs lista))) := by
  constructor
  · intro fs lista salida h
    rw [unir_pdfs_en_uno_app]
    simp [h]
  · intro fs lista salida
    rw [unir_pdfs_en_uno_cm, fsWrite, if_pos rfl]

/-- Witness for the amended C3: the empty merge on the web variant
returns `False` with the filesystem untouched. -/
theorem C3_amended_witness :
    merge_pages (fun _ => none) ["roto.pdf"] = [] ∧
    unir_pdfs_en_uno_app (fun _ => none) ["roto.pdf"] "salida.pdf" =
      (false, (fun _ => none)) := by
  refine ⟨rfl, ?_⟩
  exact C3_amended_zero_page_merge.1 (fun _ => none) ["roto.pdf"] "salida.pdf" rfl

/-- C4: with a non-empty session, an existing global archive is renamed
to the backup name (its bytes preserved, never deleted) and the new
global archive is the backup's pages followed by each session archive's
pages in session order, so P + A + B pages in total. -/
theorem C4_pdf_global_backup_and_merge :
    ∀ (fs : FS) (a b : String) (P A B : List Page),
      fs ruta_global = some (.pdf P) →
      fs a = some (.pdf A) → fs b = some (.pdf B) →
      a ≠ ruta_global → b ≠ ruta_global → a ≠ bak_global → b ≠ bak_global →
      pdf_global_cierre fs [a, b] ruta_global = some (.pdf (P ++ A ++ B)) ∧
      pdf_global_cierre fs [a, b] bak_global = some (.pdf P) ∧
      (P ++ A ++ B).length = P.length + A.length + B.length := by
  intro fs a b P A B hP hA hB ha hb ha2 hb2
  have hbakne : bak_global ≠ ruta_global := by decide
  have hcierre : pdf_global_cierre fs [a, b] =
      unir_pdfs_en_uno_cm (fsRename fs ruta_global bak_global)
        (bak_global :: [a, b]) ruta_global := by
    rw [pdf_global_cierre, if_neg (by simp), hP]
  have hren : ∀ q : String, fsRename fs ruta_global bak_global q =
      (if q = bak_global then fs ruta_global else if q = ruta_global then none else fs q) := by
    intro q
    rfl
  have hpages : merge_pages (fsRename fs ruta_global bak_global) (bak_global :: [a, b]) =
      P ++ (A ++ (B ++ [])) := by
    rw [merge_pages, hren, if_pos rfl, hP, merge_pages, hren, if_neg ha2, if_neg ha, hA,
      merge_pages, hren, if_neg hb2, if_neg hb, hB, merge_pages]
  refine ⟨?_, ?_, by simp; omega⟩
  · rw [hcierre, unir_pdfs_en_uno_cm, fsWrite, if_pos rfl, hpages]
    simp
  · rw [hcierre, unir_pdfs_en_uno_cm, fsWrite, if_neg hbakne, hren, if_pos rfl, hP]

/-- Filesystem fixture for the C4 witness: a one-page global archive and
two student archives of two pages and one page. -/
def c4fs : FS := fun q =>
  if q = ruta_global then some (.pdf [.doc 0])
  else if q = "ALUMNOS_UAN/CURP1_COMPLETO_OFICIAL.pdf" then some (.pdf [.doc 1, .doc 2])
  else if q = "ALUMNOS_UAN/CURP2_COMPLETO_OFICIAL.pdf" then some (.pdf [.doc 3])
  else none

/-- Witness for C4: 1 + 2 + 1 pages end up in the new global archive, in
order, and the backup holds the old page. -/
theorem C4_witness :
    c4fs ruta_global = some (.pdf [.doc 0]) ∧
    pdf_global_cierre c4fs
        ["ALUMNOS_UAN/CURP1_COMPLETO_OFICIAL.pdf", "ALUMNOS_UAN/CURP2_COMPLETO_OFICIAL.pdf"]
        ruta_global = some (.pdf [.doc 0, .doc 1, .doc 2, .doc 3]) ∧
    pdf_global_cierre c4fs
        ["ALUMNOS_UAN/CURP1_COMPLETO_OFICIAL.pdf", "ALUMNOS_UAN/CURP2_COMPLETO_OFICIAL.pdf"]
        bak_global = some (.pdf [.doc 0]) := by
  have h := C4_pdf_global_backup_and_merge c4fs
    "ALUMNOS_UAN/CURP1_COMPLETO_OFICIAL.pdf" "ALUMNOS_UAN/CURP2_COMPLETO_OFICIAL.pdf"
    [.doc 0] [.doc 1, .doc 2] [.doc 3]
    (by decide) (by decide) (by decide) (by decide) (by decide) (by decide) (by decide)
  exact ⟨by decide, h.1, h.2.1⟩

/-- Modelled from the spec: the numeric content of a cell value, exact as
a fraction, for the claim reading of "when that value is numeric". -/
def spec_numeric_value : Value → Option (Int × Nat)
  | .int n => some (n, 1)
  | .float x => some (x.num, x.den)
  | .bool b => some ((if b then 1 else 0), 1)
  | .str _ => none

/-- Modelled from the spec: "the value in column 1 of the row immediately
above the insertion row plus 1", as an exact fraction. -/
def spec_plus_one (q : Int × Nat) : Int × Nat := (q.1 + q.2, q.2)

/-- Equality of exact fractions by cross multiplication. -/
def qEq (x y : Int × Nat) : Prop := x.1 * (y.2 : Int) = y.1 * (x.2 : Int)

instance (x y : Int × Nat) : Decidable (qEq x y) :=
  inferInstanceAs (Decidable (x.1 * (y.2 : Int) = y.1 * (x.2 : Int)))

/-- Machote fixture for the C5 counterexample: the cell above the
insertion row holds the float 2.5. -/
def c5_sheet : Sheet :=
  { val := fun r c => if r = 9 ∧ c = 1 then some (.float ⟨5, 2⟩) else none,
    merged := fun _ _ => false, max_row := 40 }

/-- Engine-state fixture for the C5 counterexample. -/
def c5_state : GestorState :=
  { ws_machote := c5_sheet, ws_gestores := exSheet, row_m := 10, row_g := 3 }

/-- C5 counterexample: with the numeric value 2.5 in the cell above, the
code writes `int(2.5) + 1 = 3`, not 2.5 + 1 = 3.5, so the sequence
number is not "the value in the row immediately above plus 1". -/
theorem C5_counterexample :
    c5_state.ws_machote.val (c5_state.row_m - 1) 1 = some (.float ⟨5, 2⟩) ∧
    spec_numeric_value (.float ⟨5, 2⟩) = some (5, 2) ∧
    (agregar_alumno c5_state exAl).map (fun t => t.ws_machote.val 10 1) =
      some (some (.int 3)) ∧
    spec_plus_one (5, 2) = (7, 2) ∧
    ¬ qEq (spec_plus_one (5, 2)) (3, 1) := by
  refine ⟨rfl, rfl, by decide, rfl, by decide⟩

/-- C5 amended: the sequence number written in column 1 of the insertion
row is `int(prev) + 1` — the previous value truncated toward zero, plus
one — when the previous cell holds a number (int, float, or bool, which
Python counts as int), and 1 otherwise; consequently consecutive appends
in one session write integers that increase by exactly 1. -/
theorem C5_amended_seq_number :
    (∀ (s : GestorState) (al : Alumno),
      (agregar_alumno s al).map (fun t => t.ws_machote.val s.row_m 1) =
        (agregar_alumno s al).map (fun _ =>
          some (.int (next_seq (s.ws_machote.val (s.row_m - 1) 1))))) ∧
    (∀ n : Int, next_seq (some (.int n)) = n + 1) ∧
    (∀ x : PyFloat, next_seq (some (.float x)) = pfTrunc x + 1) ∧
    (∀ t : String, next_seq (some (.str t)) = 1) ∧
    next_seq none = 1 ∧
    (∀ (s : GestorState) (al al2 : Alumno) (n : Int),
      (agregar_alumno s al).map (fun t => t.ws_machote.val s.row_m 1) =
        some (some (.int n)) →
      ((agregar_alumno s al).bind (fun s1 => agregar_alumno s1 al2)).map
          (fun t => t.ws_machote.val (s.row_m + 1) 1) =
        ((agregar_alumno s al).bind (fun s1 => agregar_alumno s1 al2)).map
          (fun _ => some (.int (n + 1)))) := by
  have hwrite : ∀ (s : GestorState) (al : Alumno),
      (agregar_alumno s al).map (fun t => t.ws_machote.val s.row_m 1) =
        (agregar_alumno s al).map (fun _ =>
          some (.int (next_seq (s.ws_machote.val (s.row_m - 1) 1)))) := by
    intro s al
    rw [agregar_alumno_eq]
    cases any_fotos_mark al with
    | none => rfl
    | some anyf =>
      simp only [Option.map_some', agregar_resultado]
      rw [writeCells_val, if_pos ⟨rfl, by omega, by simp [datos_machote]⟩]
      simp [datos_machote]
  refine ⟨hwrite, fun n => rfl, fun x => rfl, fun t => rfl, rfl, ?_⟩
  intro s al al2 n hfirst
  cases ha : agregar_alumno s al with
  | none => rw [ha] at hfirst; simp at hfirst
  | some s1 =>
    rw [ha] at hfirst
    simp only [Option.map_some'] at hfirst
    have hval : s1.ws_machote.val s.row_m 1 = some (.int n) := by injection hfirst
    have hrow : s1.row_m = s.row_m + 1 := by
      rw [agregar_alumno_eq] at ha
      cases hm : any_fotos_mark al with
      | none => rw [hm] at ha; simp at ha
      | some anyf =>
        rw [hm] at ha
        simp only [Option.map_some'] at ha
        obtain rfl : agregar_resultado s al anyf = s1 := by injection ha
        rfl
    simp only [Option.some_bind]
    have h2 := hwrite s1 al2
    rw [hrow] at h2
    have hprev : s1.ws_machote.val (s.row_m + 1 - 1) 1 = some (.int n) := by
      rw [Nat.add_sub_cancel]
      exact hval
    rw [hprev] at h2
    simpa [next_seq, numAsInt] using h2

/-- Witness for the amended C5: on a fresh state the first append writes
1 and the second writes 2 in the sequence column. -/
theorem C5_amended_witness :
    (agregar_alumno exState exAl).map (fun t => t.ws_machote.val exState.row_m 1) =
      some (some (.int 1)) ∧
    ((agregar_alumno exState exAl).bind (fun s1 => agregar_alumno s1 exAl)).map
        (fun t => t.ws_machote.val (exState.row_m + 1) 1) =
      ((agregar_alumno exState exAl).bind (fun s1 => agregar_alumno s1 exAl)).map
        (fun _ => some (.int 2)) := by
  refine ⟨by decide, ?_⟩
  exact C5_amended_seq_number.2.2.2.2.2 exState exAl exAl 1 (by decide)

/-- Prior-output machote fixture for the C6 counterexample: the anchor
column holds data in rows 1-9, the number 0 in row 10, and nothing from
row 11 on. -/
def c6_machote_out : Sheet :=
  { val := fun r c =>
      if c = 1 ∧ r = 10 then some (.int 0)
      else if c = 1 ∧ r < 10 then some (.str "llena")
      else none,
    merged := fun _ _ => false, max_row := 30 }

/-- Prior-output gestores fixture for the C6 counterexample. -/
def c6_gestores_out : Sheet :=
  { val := fun r c => if c = 2 ∧ r < 3 then some (.str "cab") else none,
    merged := fun _ _ => false, max_row := 30 }

set_option maxRecDepth 8192 in
/-- C6 counterexample: cell (10, 1) of the re-opened output workbook
holds the number 0 — a cell with a value — so the first cell with no
value in the anchor column is row 11; but the load-time scan tests
Python truthiness, 0 is falsy, and the engine resumes at row 10. -/
theorem C6_counterexample :
    c6_machote_out.val 10 1 = some (.int 0) ∧
    first_no_value_row (machote_cargado (some c6_machote_out) c6_machote_out "G") 1 10 50 =
      some 11 ∧
    (gestorExcel_init (some c6_machote_out) c6_machote_out (some c6_gestores_out)
        c6_gestores_out "G" 50).map GestorState.row_m = some 10 ∧
    (10 : Nat) ≠ 11 := by
  refine ⟨rfl, by decide, by decide, by decide⟩

/-- C6 amended: at load time (and only then — append merely increments)
the engine scans from the fixed start cell (machote: row 10 column 1,
gestores: row 3 column 2) to the first cell whose value is Python-falsy
(`None`, empty string, `0`, `0.0` or `False`), and that row becomes the
insertion point; re-opening a populated prior output workbook therefore
resumes at the first row whose anchor cell is empty or falsy, not at the
template start row, and the prior output is not cleaned again. -/
theorem C6_amended_find_next_row :
    (∀ (ws : Sheet) (col start fuel r : Nat),
      find_next_row ws col start fuel = some r →
        start ≤ r ∧ pyTruthy (ws.val r col) = false ∧
        ∀ k, start ≤ k → k < r → pyTruthy (ws.val k col) = true) ∧
    (∀ om tm og tg (gestor : String) (fuel : Nat),
      (gestorExcel_init om tm og tg gestor fuel).map GestorState.row_m =
        (find_next_row (gestores_cargado og tg gestor) 2 3 fuel).bind (fun _ =>
          find_next_row (machote_cargado om tm gestor) 1 10 fuel) ∧
      (gestorExcel_init om tm og tg gestor fuel).map GestorState.row_g =
        (find_next_row (machote_cargado om tm gestor) 1 10 fuel).bind (fun _ =>
          find_next_row (gestores_cargado og tg gestor) 2 3 fuel)) ∧
    (∀ (wsOut tm : Sheet) (gestor : String),
      machote_cargado (some wsOut) tm gestor =
        { wsOut with val := updVal wsOut.val 29 2 (some (.str gestor)) }) ∧
    (∀ (s : GestorState) (al : Alumno),
      (agregar_alumno s al).map GestorState.row_m =
        (agregar_alumno s al).map (fun _ => s.row_m + 1) ∧
      (agregar_alumno s al).map GestorState.row_g =
        (agregar_alumno s al).map (fun _ => s.row_g + 1)) := by
  refine ⟨fun ws col start fuel r h => find_next_row_spec ws col fuel start r h, ?_, ?_, ?_⟩
  · intro om tm og tg gestor fuel
    rw [gestorExcel_init]
    cases hm : find_next_row (machote_cargado om tm gestor) 1 10 fuel with
    | none =>
      cases hg : find_next_row (gestores_cargado og tg gestor) 2 3 fuel with
      | none => exact ⟨rfl, rfl⟩
      | some rg => exact ⟨rfl, rfl⟩
    | some rm =>
      cases hg : find_next_row (gestores_cargado og tg gestor) 2 3 fuel with
      | none => exact ⟨rfl, rfl⟩
      | some rg => exact ⟨rfl, rfl⟩
  · intro wsOut tm gestor
    rfl
  · intro s al
    rw [agregar_alumno_eq]
    cases any_fotos_mark al <;> exact ⟨rfl, rfl⟩

set_option maxRecDepth 8192 in
/-- Witness for the amended C6: on the re-opened output fixture the scan
from row 10 stops at row 10 (a falsy cell), every cell before it is
truthy, the engine's pointer equals the scan result, and an append then
moves the pointer to 11 without rescanning. -/
theorem C6_amended_witness :
    find_next_row (machote_cargado (some c6_machote_out) c6_machote_out "G") 1 10 50 =
      some 10 ∧
    pyTruthy ((machote_cargado (some c6_machote_out) c6_machote_out "G").val 10 1) = false ∧
    (gestorExcel_init (some c6_machote_out) c6_machote_out (some c6_gestores_out)
        c6_gestores_out "G" 50).map GestorState.row_m = some 10 ∧
    (agregar_alumno exState exAl).map GestorState.row_m = some (exState.row_m + 1) := by
  have h1 : find_next_row (machote_cargado (some c6_machote_out) c6_machote_out "G")
      1 10 50 = some 10 := by decide
  refine ⟨h1, ?_, ?_, ?_⟩
  · exact (C6_amended_find_next_row.1 (machote_cargado (some c6_machote_out)
      c6_machote_out "G") 1 10 50 10 h1).2.1
  · rw [(C6_amended_find_next_row.2.1 (some c6_machote_out) c6_machote_out
      (some c6_gestores_out) c6_gestores_out "G" 50).1]
    decide
  · rw [(C6_amended_find_next_row.2.2.2 exState exAl).1]
    decide

/-- Document fixture for the C7 counterexample: submitted, with a source
path that resolves to no file at all. -/
def c7_doc : Documento :=
  { nombre_clave := "acta", nombre_archivo := "ACTA_NACIMIENTO",
    ruta_origen := some "faltante.pdf", presentado := true, ruta_final_pdf := none }

/-- C7 counterexample: the source file does not exist, yet because its
extension is `.pdf` the normalizer returns a result path anyway
(`safe_copy` silently does nothing), and the main loop records it in
`ruta_final_pdf` — even though no file was produced at that path. -/
theorem C7_counterexample :
    (fun _ => (none : Option FileData)) "faltante.pdf" = none ∧
    (procesar_documento_a_pdf (fun _ => none) c7_doc "CARPETA").1 =
      some "CARPETA/ACTA_NACIMIENTO.pdf" ∧
    (registrar_documento (fun _ => none) "CURP1" c7_doc "CARPETA" []).1.ruta_final_pdf =
      some "CARPETA/CURP1_ACTA_NACIMIENTO.pdf" ∧
    (registrar_documento (fun _ => none) "CURP1" c7_doc "CARPETA" []).2.2
      "CARPETA/CURP1_ACTA_NACIMIENTO.pdf" = none := by
  refine ⟨rfl, by decide, by decide, rfl⟩

/-- C7 amended: a result path is produced only if the document is
submitted and has a source path whose lowered extension is `.pdf` or a
supported image extension; for image extensions the source must
additionally decode and re-encode successfully, but for a `.pdf`
extension the path is returned without any readability check. -/
theorem C7_amended_result_path :
    ∀ (fs : FS) (doc : Documento) (carpeta p : String),
      (procesar_documento_a_pdf fs doc carpeta).1 = some p →
      doc.presentado = true ∧
      ∃ src, doc.ruta_origen = some src ∧
        p = carpeta ++ "/" ++ doc.nombre_archivo ++ ".pdf" ∧
        (lowerStr (pathSuffix src) = ".pdf" ∨
         (lowerStr (pathSuffix src) ∈ image_exts ∧
          (convertir_imagen_a_pdf
             (safe_copy fs src (carpeta ++ "/" ++ doc.nombre_archivo ++ lowerStr (pathSuffix src)))
             src (carpeta ++ "/" ++ doc.nombre_archivo ++ ".pdf")).1 = true ∧
          (pilOpen
             (safe_copy fs src (carpeta ++ "/" ++ doc.nombre_archivo ++ lowerStr (pathSuffix src)))
             src).isSome = true)) := by
  intro fs doc carpeta p h
  rw [procesar_documento_a_pdf] at h
  by_cases hp : doc.presentado = false
  · rw [if_pos hp] at h
    exact absurd h (by simp)
  · rw [if_neg hp] at h
    refine ⟨by cases hpre : doc.presentado; exact absurd hpre hp; rfl, ?_⟩
    cases hsrc : doc.ruta_origen with
    | none => rw [hsrc] at h; exact absurd h (by simp)
    | some src =>
      rw [hsrc] at h
      have h2 : (if lowerStr (pathSuffix src) = ".pdf" then
            (some (carpeta ++ "/" ++ doc.nombre_archivo ++ ".pdf"),
             safe_copy
               (safe_copy fs src (carpeta ++ "/" ++ doc.nombre_archivo ++ lowerStr (pathSuffix src)))
               src (carpeta ++ "/" ++ doc.nombre_archivo ++ ".pdf"))
          else if lowerStr (pathSuffix src) ∈ image_exts then
            (match convertir_imagen_a_pdf
                (safe_copy fs src (carpeta ++ "/" ++ doc.nombre_archivo ++ lowerStr (pathSuffix src)))
                src (carpeta ++ "/" ++ doc.nombre_archivo ++ ".pdf") with
             | (true, fs2) => (some (carpeta ++ "/" ++ doc.nombre_archivo ++ ".pdf"), fs2)
             | (false, fs2) => ((none : Option String), fs2))
          else ((none : Option String),
            safe_copy fs src (carpeta ++ "/" ++ doc.nombre_archivo ++ lowerStr (pathSuffix src)))).1 =
          some p := h
      refine ⟨src, rfl, ?_⟩
      by_cases hext : lowerStr (pathSuffix src) = ".pdf"
      · rw [if_pos hext] at h2
        have hp2 : carpeta ++ "/" ++ doc.nombre_archivo ++ ".pdf" = p := by simpa using h2
        exact ⟨hp2.symm, Or.inl hext⟩
      · rw [if_neg hext] at h2
        by_cases himg : lowerStr (pathSuffix src) ∈ image_exts
        · rw [if_pos himg] at h2
          cases hconv : convertir_imagen_a_pdf
              (safe_copy fs src (carpeta ++ "/" ++ doc.nombre_archivo ++ lowerStr (pathSuffix src)))
              src (carpeta ++ "/" ++ doc.nombre_archivo ++ ".pdf") with
          | mk b fs2 =>
            rw [hconv] at h2
            cases b with
            | false => exact absurd h2 (by simp)
            | true =>
              have hp2 : carpeta ++ "/" ++ doc.nombre_archivo ++ ".pdf" = p := by simpa using h2
              refine ⟨hp2.symm, Or.inr ⟨himg, by rfl, ?_⟩⟩
              rw [convertir_imagen_a_pdf] at hconv
              cases hopen : pilOpen
                  (safe_copy fs src (carpeta ++ "/" ++ doc.nombre_archivo ++ lowerStr (pathSuffix src)))
                  src with
              | none => rw [hopen] at hconv; exact absurd hconv (by simp)
              | some im => rfl
        · rw [if_neg himg] at h2
          exact absurd h2 (by simp)

/-- Filesystem fixture for the C7 witness: a readable one-page PDF. -/
def c7wfs : FS := fun q => if q = "origen/acta.pdf" then some (.pdf [.doc 7]) else none

/-- Document fixture for the C7 witness. -/
def c7wdoc : Documento :=
  { nombre_clave := "acta", nombre_archivo := "CURP1_ACTA_NACIMIENTO",
    ruta_origen := some "origen/acta.pdf", presentado := true, ruta_final_pdf := none }

/-- Witness for the amended C7: a submitted readable PDF source yields
the result path, and the theorem recovers that the document was
submitted. -/
theorem C7_amended_witness :
    (procesar_documento_a_pdf c7wfs c7wdoc "CARPETA").1 =
      some "CARPETA/CURP1_ACTA_NACIMIENTO.pdf" ∧
    c7wdoc.presentado = true ∧
    c7wdoc.ruta_origen = some "origen/acta.pdf" := by
  have h : (procesar_documento_a_pdf c7wfs c7wdoc "CARPETA").1 =
      some "CARPETA/CURP1_ACTA_NACIMIENTO.pdf" := by decide
  exact ⟨h, (C7_amended_result_path c7wfs c7wdoc "CARPETA"
    "CARPETA/CURP1_ACTA_NACIMIENTO.pdf" h).1, rfl⟩

/-- Filesystem fixture for the C8 counterexample: a CMYK image under a
supported extension. -/
def c8_fs : FS := fun q => if q = "foto.tif" then some (.image ⟨"CMYK", 7⟩) else none

/-- Document fixture for the C8 counterexample. -/
def c8_doc : Documento :=
  { nombre_clave := "fotos_inf", nombre_archivo := "F", ruta_origen := some "foto.tif",
    presentado := true, ruta_final_pdf := none }

/-- C8 counterexample: CMYK is neither RGB nor greyscale, yet the code
only converts modes `"RGBA"` and `"P"`, so the CMYK image is encoded
into the PDF with its mode unchanged — not "converted to plain RGB" as
the claim states. -/
theorem C8_counterexample :
    c8_fs "foto.tif" = some (.image ⟨"CMYK", 7⟩) ∧
    (procesar_documento_a_pdf c8_fs c8_doc "C").1 = some "C/F.pdf" ∧
    (procesar_documento_a_pdf c8_fs c8_doc "C").2 "C/F.pdf" =
      some (.pdf [.fromImage "CMYK" ⟨100, 1⟩ 7]) ∧
    ("CMYK" : String) ≠ "RGB" ∧ ("CMYK" : String) ≠ "L" := by
  refine ⟨rfl, by decide, by decide, by decide, by decide⟩

/-- Value of a written file at its own path. -/
theorem fsWrite_at (fs : FS) (p : String) (f : FileData) : fsWrite fs p f p = some f := by
  simp [fsWrite]

/-- C8 amended: for a decodable image, exactly the modes `"RGBA"` and
`"P"` are converted to `"RGB"` before encoding; any other mode is passed
through unchanged; when the encoder accepts the resulting mode the
output is a single-page PDF at the fixed resolution 100, written to the
destination path. -/
theorem C8_amended_image_to_pdf :
    ∀ (fs : FS) (src dst : String) (im : PILImage),
      pilOpen fs src = some im →
      ((im.mode = "RGBA" ∨ im.mode = "P") →
        convertir_imagen_a_pdf fs src dst =
          (true, fsWrite fs dst (.pdf [.fromImage "RGB" ⟨100, 1⟩ im.data]))) ∧
      (¬(im.mode = "RGBA" ∨ im.mode = "P") → im.mode ∈ pdfSaveModes →
        convertir_imagen_a_pdf fs src dst =
          (true, fsWrite fs dst (.pdf [.fromImage im.mode ⟨100, 1⟩ im.data]))) ∧
      (∀ b fs2 pgs, convertir_imagen_a_pdf fs src dst = (b, fs2) →
        fs2 dst = some (.pdf pgs) → fs dst = some (.pdf pgs) ∨ pgs.length = 1) := by
  intro fs src dst im hopen
  have hred : convertir_imagen_a_pdf fs src dst =
      (match pilSaveAsPdf
          (if im.mode = "RGBA" ∨ im.mode = "P" then { im with mode := "RGB" } else im) with
        | some f => (true, fsWrite fs dst f)
        | none => (false, fs)) := by
    rw [convertir_imagen_a_pdf, hopen]
  refine ⟨?_, ?_, ?_⟩
  · intro hmode
    have hin2 : ({ im with mode := "RGB" } : PILImage).mode ∈ pdfSaveModes := by
      show ("RGB" : String) ∈ pdfSaveModes
      decide
    have hsave : pilSaveAsPdf { im with mode := "RGB" } =
        some (.pdf [.fromImage "RGB" ⟨100, 1⟩ im.data]) := by
      rw [pilSaveAsPdf, if_pos hin2]
    rw [hred, if_pos hmode, hsave]
  · intro hmode hsavem
    have hsave : pilSaveAsPdf im = some (.pdf [.fromImage im.mode ⟨100, 1⟩ im.data]) := by
      rw [pilSaveAsPdf, if_pos hsavem]
    rw [hred, if_neg hmode, hsave]
  · intro b fs2 pgs hc hdst
    rw [hred] at hc
    by_cases hmode : im.mode = "RGBA" ∨ im.mode = "P"
    · rw [if_pos hmode] at hc
      cases hsave : pilSaveAsPdf { im with mode := "RGB" } with
      | none =>
        rw [hsave] at hc
        obtain ⟨rfl, rfl⟩ : b = false ∧ fs2 = fs := by
          constructor <;> · injection hc with h1 h2; first | exact h1.symm | exact h2.symm
        exact Or.inl hdst
      | some f =>
        rw [hsave] at hc
        have hin2 : ({ im with mode := "RGB" } : PILImage).mode ∈ pdfSaveModes := by
          show ("RGB" : String) ∈ pdfSaveModes
          decide
        rw [pilSaveAsPdf, if_pos hin2] at hsave
        obtain rfl : (FileData.pdf [.fromImage "RGB" ⟨100, 1⟩ im.data]) = f := by
          injection hsave
        obtain ⟨rfl, rfl⟩ : b = true ∧
            fs2 = fsWrite fs dst (.pdf [.fromImage "RGB" ⟨100, 1⟩ im.data]) := by
          constructor <;> · injection hc with h1 h2; first | exact h1.symm | exact h2.symm
        rw [fsWrite_at] at hdst
        right
        have h3 : FileData.pdf [Page.fromImage "RGB" ⟨100, 1⟩ im.data] = FileData.pdf pgs := by
          injection hdst
        have h4 : [Page.fromImage "RGB" ⟨100, 1⟩ im.data] = pgs := by injection h3
        rw [← h4]
        rfl
    · rw [if_neg hmode] at hc
      cases hsave : pilSaveAsPdf im with
      | none =>
        rw [hsave] at hc
        obtain ⟨rfl, rfl⟩ : b = false ∧ fs2 = fs := by
          constructor <;> · injection hc with h1 h2; first | exact h1.symm | exact h2.symm
        exact Or.inl hdst
      | some f =>
        rw [hsave] at hc
        by_cases hin : im.mode ∈ pdfSaveModes
        · rw [pilSaveAsPdf, if_pos hin] at hsave
          obtain rfl : (FileData.pdf [.fromImage im.mode ⟨100, 1⟩ im.data]) = f := by
            injection hsave
          obtain ⟨rfl, rfl⟩ : b = true ∧
              fs2 = fsWrite fs dst (.pdf [.fromImage im.mode ⟨100, 1⟩ im.data]) := by
            constructor <;> · injection hc with h1 h2; first | exact h1.symm | exact h2.symm
          rw [fsWrite_at] at hdst
          right
          have h3 : FileData.pdf [Page.fromImage im.mode ⟨100, 1⟩ im.data] = FileData.pdf pgs := by
            injection hdst
          have h4 : [Page.fromImage im.mode ⟨100, 1⟩ im.data] = pgs := by injection h3
          rw [← h4]
          rfl
        · rw [pilSaveAsPdf, if_neg hin] at hsave
          exact absurd hsave (by simp)

/-- Filesystem fixture for the C8 witness: an RGBA image. -/
def c8w_fs : FS := fun q => if q = "foto.png" then some (.image ⟨"RGBA", 5⟩) else none

/-- Witness for the amended C8: the RGBA image is converted to RGB and
encoded as a single-page PDF at resolution 100. -/
theorem C8_amended_witness :
    pilOpen c8w_fs "foto.png" = some ⟨"RGBA", 5⟩ ∧
    convertir_imagen_a_pdf c8w_fs "foto.png" "salida.pdf" =
      (true, fsWrite c8w_fs "salida.pdf" (.pdf [.fromImage "RGB" ⟨100, 1⟩ 5])) := by
  refine ⟨by decide, ?_⟩
  exact (C8_amended_image_to_pdf c8w_fs "foto.png" "salida.pdf" ⟨"RGBA", 5⟩
    (by decide)).1 (Or.inl rfl)

/-- Student fixture with an empty documents mapping for the C9
counterexample. -/
def al_sin_docs : Alumno := { exAl with docs := [] }

/-- C9 counterexample: the per-category marks treat an absent category as
not submitted, but the combined any-photo mark indexes the three photo
keys directly, so an append for a record whose mapping lacks them raises
`KeyError` — the computation is not error-free for absent categories as
the claim states. -/
theorem C9_counterexample :
    dget al_sin_docs.docs "fotos_inf" = none ∧
    al_sin_docs.mark "fotos_inf" = "" ∧
    al_sin_docs.get_excel_mark "fotos_inf" = "" ∧
    any_fotos_mark al_sin_docs = none ∧
    agregar_alumno exState al_sin_docs = none := by
  refine ⟨rfl, rfl, rfl, rfl, ?_⟩
  rw [agregar_alumno_eq]
  rfl

/-- C9 amended: both per-category marks yield "X" exactly when the
category is present with `submitted` true, yield the blank mark when the
category is absent, and never raise; the combined any-photo mark,
however, raises `KeyError` exactly when one of the three photo
categories is absent from the mapping, and the append performing it
fails in the same cases. -/
theorem C9_amended_marks :
    (∀ (al : Alumno) (key : String),
      (al.get_excel_mark key = "X" ↔ ∃ d, dget al.docs key = some d ∧ d.presentado = true)) ∧
    (∀ (al : Alumno) (key : String), dget al.docs key = none →
      al.get_excel_mark key = "" ∧ al.mark key = "") ∧
    (∀ (al : Alumno) (key : String), al.mark key = al.get_excel_mark key) ∧
    (∀ al : Alumno, any_fotos_mark al = none ↔
      (dget al.docs "fotos_inf" = none ∨ dget al.docs "fotos_cred" = none ∨
       dget al.docs "fotos_tit" = none)) ∧
    (∀ (s : GestorState) (al : Alumno),
      (agregar_alumno s al).isSome = (any_fotos_mark al).isSome) := by
  refine ⟨?_, ?_, fun al key => rfl, ?_, ?_⟩
  · intro al key
    rw [Alumno.get_excel_mark]
    cases hd : dget al.docs key with
    | none =>
      show ("" : String) = "X" ↔ ∃ d2, (none : Option Documento) = some d2 ∧ d2.presentado = true
      constructor
      · intro h
        exact absurd h (by decide)
      · intro ⟨d2, hd2, _⟩
        exact Option.noConfusion hd2
    | some d =>
      show (if d.presentado = true then "X" else "") = "X" ↔
        ∃ d2, some d = some d2 ∧ d2.presentado = true
      by_cases hp : d.presentado = true
      · rw [if_pos hp]
        exact ⟨fun _ => ⟨d, rfl, hp⟩, fun _ => rfl⟩
      · rw [if_neg hp]
        constructor
        · intro h
          exact absurd h (by decide)
        · intro ⟨d2, hd2, hp2⟩
          obtain rfl : d = d2 := by injection hd2
          exact absurd hp2 hp
  · intro al key hd
    rw [Alumno.get_excel_mark, Alumno.mark, hd]
    exact ⟨rfl, rfl⟩
  · intro al
    rw [any_fotos_mark]
    cases h1 : dget al.docs "fotos_inf" with
    | none => simp
    | some d1 =>
      cases h2 : dget al.docs "fotos_cred" with
      | none => simp
      | some d2 =>
        cases h3 : dget al.docs "fotos_tit" with
        | none => simp
        | some d3 => simp
  · intro s al
    rw [agregar_alumno_eq]
    cases any_fotos_mark al <;> rfl

/-- Witness for the amended C9: on the full fixture the photo categories
are present, the marks compute without error, and the append succeeds;
the submitted category carries "X" with a matching document. -/
theorem C9_amended_witness :
    dget exAl.docs "fotos_inf" = some (exDoc "fotos_inf" true) ∧
    exAl.get_excel_mark "fotos_inf" = "X" ∧
    exAl.mark "curp_doc" = exAl.get_excel_mark "curp_doc" ∧
    (agregar_alumno exState exAl).isSome = (any_fotos_mark exAl).isSome ∧
    (any_fotos_mark exAl).isSome = true := by
  refine ⟨by decide, ?_, ?_, ?_, by decide⟩
  · exact (C9_amended_marks.1 exAl "fotos_inf").mpr ⟨exDoc "fotos_inf" true, by decide, by decide⟩
  · exact C9_amended_marks.2.2.1 exAl "curp_doc"
  · exact C9_amended_marks.2.2.2.2 exState exAl

end UAN
